import Mathlib

/-!
Verification of the ResponseEnvelope module (src/src/utils/apiResponse.ts)
of the Know-your-zip repository.

The TypeScript module defines:
  - `ApiResponse<T>`: `{ success: boolean; data?: T;
      error?: { code: string; message: string; details?: unknown };
      timestamp: number }`
  - `createSuccessResponse<T>(data: T)`: returns
      `{ success: true, data, timestamp: Date.now() }`
  - `createErrorResponse(code, message, details?)`: returns
      `{ success: false, error: { code, message, details },
         timestamp: Date.now() }`
  - `isSuccessResponse(r)`: returns `r.success && 'data' in r`
  - `isErrorResponse(r)`: returns `!r.success && 'error' in r`

Embedding choices:
  - Optional object fields (`data?`, `error?`, `details?`) are modelled as
    `Option`; `none` models the field being absent (the JavaScript `in`
    operator returning false) and, for `details`, the omitted/`undefined`
    argument.
  - The payload type `T` and the unconstrained `details` shape are type
    parameters `T` and `D`.
  - `Date.now()` is an ambient clock read; the constructors take the clock
    reading as an explicit extra argument `now : Nat` (milliseconds since
    the epoch), making them pure functions of their inputs and the clock.
-/

namespace KnowYourZip

/-- The `error` record of the envelope: `{ code: string; message: string;
details?: unknown }`.  `details` is `none` when the field is
omitted/`undefined`. -/
structure ApiError (D : Type) where
  code : String
  message : String
  details : Option D
deriving DecidableEq

/-- The envelope shape `ApiResponse<T>` from the source.  `data` and `error`
are optional fields; `none` models absence of the key. -/
structure ApiResponse (T : Type) (D : Type) where
  success : Bool
  data : Option T
  error : Option (ApiError D)
  timestamp : Nat
deriving DecidableEq

/-- `createSuccessResponse<T>(data: T)`: builds
`{ success: true, data, timestamp: Date.now() }`.  The clock reading
`Date.now()` is the explicit argument `now`.  No `error` key is written. -/
def createSuccessResponse {T D : Type} (data : T) (now : Nat) :
    ApiResponse T D :=
  ⟨true, some data, none, now⟩

/-- `createErrorResponse(code, message, details?)`: builds
`{ success: false, error: { code, message, details }, timestamp: Date.now() }`.
The optional `details` argument is `none` when omitted (then
`error.details` is `undefined`).  No `data` key is written. -/
def createErrorResponse {T D : Type} (code : String) (message : String)
    (details : Option D) (now : Nat) : ApiResponse T D :=
  ⟨false, none, some ⟨code, message, details⟩, now⟩

/-- `isSuccessResponse(response)`: the source returns
`response.success && 'data' in response`. -/
def isSuccessResponse {T D : Type} (response : ApiResponse T D) : Bool :=
  response.success && response.data.isSome

/-- `isErrorResponse(response)`: the source returns
`!response.success && 'error' in response`. -/
def isErrorResponse {T D : Type} (response : ApiResponse T D) : Bool :=
  !response.success && response.error.isSome

/-- An envelope is well-formed when the variant field selected by the
`success` flag is actually present: `data` on the success side, `error` on
the failure side.  Every constructor output is well-formed. -/
def WellFormed {T D : Type} (e : ApiResponse T D) : Prop :=
  (e.success = true → e.data.isSome = true) ∧
  (e.success = false → e.error.isSome = true)

instance {T D : Type} (e : ApiResponse T D) : Decidable (WellFormed e) := by
  unfold WellFormed
  infer_instance

/-- One call to one of the two constructors, with its arguments. -/
inductive ApiCall (T D : Type) where
  | mkSuccess (data : T)
  | mkFailure (code : String) (message : String) (details : Option D)

/-- Run a single constructor call at clock reading `now`. -/
def runCall {T D : Type} (c : ApiCall T D) (now : Nat) : ApiResponse T D :=
  match c with
  | .mkSuccess data => createSuccessResponse data now
  | .mkFailure code message details =>
      createErrorResponse code message details now

/-- Run a sequence of constructor calls, each paired with the clock reading
observed at the moment of that call. -/
def runTrace {T D : Type} (trace : List (ApiCall T D × Nat)) :
    List (ApiResponse T D) :=
  trace.map (fun p => runCall p.1 p.2)

theorem runCall_timestamp {T D : Type} (c : ApiCall T D) (now : Nat) :
    (runCall c now).timestamp = now := by
  cases c <;> rfl

theorem runTrace_timestamps {T D : Type}
    (trace : List (ApiCall T D × Nat)) :
    (runTrace trace).map ApiResponse.timestamp = trace.map Prod.snd := by
  induction trace with
  | nil => rfl
  | cons p rest ih =>
      simp only [runTrace, List.map_cons] at ih ⊢
      rw [runCall_timestamp, ih]

/-- Claim C1, counterexample.  The claim asserts that for EVERY value of the
envelope shape exactly one of `isSuccessResponse`, `isErrorResponse` is
true.  The envelope `{ success: true, timestamp: 0 }` with neither a `data`
nor an `error` key falsifies it: both predicates return false, because
`isSuccessResponse` also requires `'data' in response` and
`isErrorResponse` also requires `'error' in response`. -/
theorem C1_counterexample :
    isSuccessResponse (⟨true, none, none, 0⟩ : ApiResponse Nat Nat) = false ∧
    isErrorResponse (⟨true, none, none, 0⟩ : ApiResponse Nat Nat) = false :=
  ⟨rfl, rfl⟩

/-- Claim C1, amended.  At most one of `isSuccessResponse e`,
`isErrorResponse e` is true for every envelope `e`; and for every
well-formed envelope (the variant field selected by the `success` flag is
present — in particular every constructor output) exactly one of the two
is true. -/
theorem C1_exactly_one_of_wellformed {T D : Type} (e : ApiResponse T D)
    (h : WellFormed e) :
    (isSuccessResponse e = true ∨ isErrorResponse e = true) ∧
    (isSuccessResponse e && isErrorResponse e) = false := by
  obtain ⟨hs, he⟩ := h
  constructor
  · cases hsuc : e.success with
    | true =>
        left
        simp [isSuccessResponse, hsuc, hs hsuc]
    | false =>
        right
        simp [isErrorResponse, hsuc, he hsuc]
  · cases hsuc : e.success <;>
      simp [isSuccessResponse, isErrorResponse, hsuc]

/-- Claim C1, witness: the amended theorem applied to the concrete
well-formed envelope `createSuccessResponse 42` at clock reading 7. -/
theorem C1_witness :
    (isSuccessResponse (createSuccessResponse 42 7 : ApiResponse Nat Nat) =
        true ∨
      isErrorResponse (createSuccessResponse 42 7 : ApiResponse Nat Nat) =
        true) ∧
    (isSuccessResponse (createSuccessResponse 42 7 : ApiResponse Nat Nat) &&
      isErrorResponse (createSuccessResponse 42 7 : ApiResponse Nat Nat)) =
      false :=
  C1_exactly_one_of_wellformed (createSuccessResponse 42 7) (by decide)

/-- Claim C2, counterexample.  The claim asserts the predicates are decided
by the `success` flag alone.  The envelope
`{ success: false, data: 0, timestamp: 0 }` (no `error` key) falsifies it:
its flag is false, yet `isErrorResponse` returns false, because the source
additionally requires `'error' in response`. -/
theorem C2_counterexample :
    (⟨false, some 0, none, 0⟩ : ApiResponse Nat Nat).success = false ∧
    isErrorResponse (⟨false, some 0, none, 0⟩ : ApiResponse Nat Nat) =
      false :=
  ⟨rfl, rfl⟩

/-- Claim C2, amended.  `isSuccessResponse e` is true if and only if the
`success` flag is true AND the `data` field is present; `isErrorResponse e`
is true if and only if the flag is false AND the `error` field is present. -/
theorem C2_predicates_flag_and_field {T D : Type} (e : ApiResponse T D) :
    (isSuccessResponse e = true ↔
      (e.success = true ∧ e.data.isSome = true)) ∧
    (isErrorResponse e = true ↔
      (e.success = false ∧ e.error.isSome = true)) := by
  cases e with
  | mk success data error timestamp =>
      cases success <;>
        simp [isSuccessResponse, isErrorResponse]

/-- Claim C3: on constructor outputs the predicates classify correctly:
`isSuccessResponse (createSuccessResponse v) = true` and
`isErrorResponse` of it is false; `isErrorResponse` of
`createErrorResponse code message details` is true and `isSuccessResponse`
of it is false — for all arguments and clock readings. -/
theorem C3_predicates_on_constructors {T D : Type} (v : T) (now : Nat)
    (code : String) (message : String) (details : Option D) (now2 : Nat) :
    isSuccessResponse (createSuccessResponse v now : ApiResponse T D) =
      true ∧
    isErrorResponse (createSuccessResponse v now : ApiResponse T D) =
      false ∧
    isErrorResponse (createErrorResponse code message details now2 :
      ApiResponse T D) = true ∧
    isSuccessResponse (createErrorResponse code message details now2 :
      ApiResponse T D) = false :=
  ⟨rfl, rfl, rfl, rfl⟩

/-- Claim C4: `createSuccessResponse v` returns an envelope whose `success`
flag is true, whose `data` field holds exactly the given value `v`, whose
`timestamp` is the clock reading at the moment of the call, and whose
`error` field is absent. -/
theorem C4_createSuccess_shape {T D : Type} (v : T) (now : Nat) :
    (createSuccessResponse v now : ApiResponse T D).success = true ∧
    (createSuccessResponse v now : ApiResponse T D).data = some v ∧
    (createSuccessResponse v now : ApiResponse T D).error = none ∧
    (createSuccessResponse v now : ApiResponse T D).timestamp = now :=
  ⟨rfl, rfl, rfl, rfl⟩

/-- Claim C5: `createErrorResponse code message details` returns an envelope
whose `success` flag is false, whose `error` record carries exactly the
given `code`, `message` and `details` (with `details = none`, i.e.
`undefined`, when the argument is omitted), and whose `data` field is
absent. -/
theorem C5_createError_shape {T D : Type} (code : String) (message : String)
    (details : Option D) (now : Nat) :
    (createErrorResponse code message details now :
      ApiResponse T D).success = false ∧
    (createErrorResponse code message details now : ApiResponse T D).error =
      some ⟨code, message, details⟩ ∧
    (createErrorResponse code message details now : ApiResponse T D).data =
      none ∧
    (createErrorResponse code message details now :
      ApiResponse T D).timestamp = now :=
  ⟨rfl, rfl, rfl, rfl⟩

/-- Claim C6: `createErrorResponse` performs no validation of its string
arguments.  For every `code` and `message` — the empty string included —
it returns a failure-shaped envelope carrying those strings verbatim; it
never rejects or raises (in the embedding it is a total function into
`ApiResponse`, not an `Option`/`Except`).  The empty-string instance is
stated explicitly alongside the general law. -/
theorem C6_no_validation {T D : Type} (code : String) (message : String)
    (details : Option D) (now : Nat) :
    isErrorResponse (createErrorResponse code message details now :
      ApiResponse T D) = true ∧
    (createErrorResponse code message details now : ApiResponse T D).error =
      some ⟨code, message, details⟩ ∧
    isErrorResponse (createErrorResponse "" "" details now :
      ApiResponse T D) = true ∧
    (createErrorResponse "" "" details now : ApiResponse T D).error =
      some ⟨"", "", details⟩ :=
  ⟨rfl, rfl, rfl, rfl⟩

/-- Claim C7: along any sequence of constructor calls, each paired with the
clock reading observed at that call, if the clock readings are
non-decreasing in call order then the `timestamp` fields of the produced
envelopes are non-decreasing in the same order (equal values allowed). -/
theorem C7_timestamps_monotone {T D : Type}
    (trace : List (ApiCall T D × Nat))
    (h : List.Chain' (fun a b => a ≤ b) (trace.map Prod.snd)) :
    List.Chain' (fun a b => a ≤ b)
      ((runTrace trace).map ApiResponse.timestamp) := by
  rw [runTrace_timestamps]
  exact h

/-- Claim C7, witness: a concrete trace of one success call at clock 5,
then one failure call at clock 5 again, then one success call at clock 9;
its timestamps are non-decreasing. -/
theorem C7_witness :
    List.Chain' (fun a b => a ≤ b)
      ((runTrace [(ApiCall.mkSuccess 1, 5),
          (ApiCall.mkFailure "E1" "boom" (none : Option Nat), 5),
          (ApiCall.mkSuccess 2, 9)]).map ApiResponse.timestamp) :=
  C7_timestamps_monotone
    [(ApiCall.mkSuccess 1, 5),
      (ApiCall.mkFailure "E1" "boom" (none : Option Nat), 5),
      (ApiCall.mkSuccess 2, 9)]
    (by simp)

/-- Claim C8: all four operations are total.  In the embedding each is a
plain total Lean function: the predicates return a definite boolean on
every envelope, and the constructors return an envelope for every input
whose only dependence on the environment is the clock reading `now`
(carried verbatim into `timestamp`). -/
theorem C8_operations_total {T D : Type} (e : ApiResponse T D) (v : T)
    (code : String) (message : String) (details : Option D) (now : Nat) :
    (isSuccessResponse e = true ∨ isSuccessResponse e = false) ∧
    (isErrorResponse e = true ∨ isErrorResponse e = false) ∧
    (createSuccessResponse v now : ApiResponse T D).timestamp = now ∧
    (createErrorResponse code message details now :
      ApiResponse T D).timestamp = now := by
  refine ⟨?_, ?_, rfl, rfl⟩
  · cases h : isSuccessResponse e
    · exact Or.inr rfl
    · exact Or.inl rfl
  · cases h : isErrorResponse e
    · exact Or.inr rfl
    · exact Or.inl rfl

/-- Claim C9: for every envelope, `isSuccessResponse` and `isErrorResponse`
are never both true, even on malformed envelopes carrying both a `data`
and an `error` field, because the two predicates test the `success` flag
with opposite polarity. -/
theorem C9_never_both {T D : Type} (e : ApiResponse T D) :
    (isSuccessResponse e && isErrorResponse e) = false := by
  cases hsuc : e.success <;>
    simp [isSuccessResponse, isErrorResponse, hsuc]

/-- Claim C10: the constructors are deterministic modulo the clock — equal
arguments and equal clock readings give structurally equal envelopes, for
both `createSuccessResponse` and `createErrorResponse`. -/
theorem C10_deterministic {T D : Type} (v1 v2 : T) (t1 t2 : Nat)
    (c1 c2 : String) (m1 m2 : String) (d1 d2 : Option D)
    (hv : v1 = v2) (ht : t1 = t2) (hc : c1 = c2) (hm : m1 = m2)
    (hd : d1 = d2) :
    (createSuccessResponse v1 t1 : ApiResponse T D) =
      createSuccessResponse v2 t2 ∧
    (createErrorResponse c1 m1 d1 t1 : ApiResponse T D) =
      createErrorResponse c2 m2 d2 t2 := by
  subst hv ht hc hm hd
  exact ⟨rfl, rfl⟩

/-- Claim C10, witness: the determinism theorem applied at concrete equal
arguments and equal clock readings. -/
theorem C10_witness :
    (createSuccessResponse 42 7 : ApiResponse Nat Nat) =
      createSuccessResponse 42 7 ∧
    (createErrorResponse "E1" "boom" (some 3) 7 : ApiResponse Nat Nat) =
      createErrorResponse "E1" "boom" (some 3) 7 :=
  C10_deterministic 42 42 7 7 "E1" "E1" "boom" "boom" (some 3) (some 3)
    rfl rfl rfl rfl rfl

end KnowYourZip
